import Mathlib

/-!
Verification of the nespreso_client library (src/nespreso_client/{utils,profile,grid}.py)
against its natural-language specification.

The Python code is shallowly embedded: pure computations become Lean functions,
network and file-system effects become explicit outcome parameters, and CPython
calendar arithmetic (datetime, timedelta, strftime, strptime) is embedded via
proleptic-Gregorian day arithmetic on Int.
-/

namespace Nespreso

/-! ## Proleptic Gregorian calendar arithmetic

CPython datetime objects are ordinal-based: datetime(1,1,1) has toordinal() = 1,
and adding timedelta(days = d) yields the datetime with ordinal 1 + d, raising
OverflowError unless the result stays within [datetime.min, datetime.max],
that is, ordinal within [1, 3652059] (years 1..9999).
civilFromDays/daysFromCivil implement the standard civil-calendar conversion
(era/year-of-era decomposition) used to relate ordinals to (year, month, day). -/

/-- Convert days-since-1970-01-01 to a proleptic Gregorian (year, month, day). -/
def civilFromDays (z : Int) : Int × Nat × Nat :=
  let zs : Int := z + 719468
  let era : Int := (if 0 ≤ zs then zs else zs - 146096) / 146097
  let doe : Int := zs - era * 146097
  let yoe : Int := (doe - doe / 1460 + doe / 36524 - doe / 146096) / 365
  let y : Int := yoe + era * 400
  let doy : Int := doe - (365 * yoe + yoe / 4 - yoe / 100)
  let mp : Int := (5 * doy + 2) / 153
  let d : Int := doy - (153 * mp + 2) / 5 + 1
  let m : Int := if mp < 10 then mp + 3 else mp - 9
  (if m ≤ 2 then y + 1 else y, m.toNat, d.toNat)

/-- Convert a proleptic Gregorian (year, month, day) to days-since-1970-01-01. -/
def daysFromCivil (y : Int) (m d : Nat) : Int :=
  let yAdj : Int := if m ≤ 2 then y - 1 else y
  let era : Int := (if 0 ≤ yAdj then yAdj else yAdj - 399) / 400
  let yoe : Int := yAdj - era * 400
  let mp : Int := if 2 < m then (m : Int) - 3 else (m : Int) + 9
  let doy : Int := (153 * mp + 2) / 5 + (d : Int) - 1
  let doe : Int := yoe * 365 + yoe / 4 - yoe / 100 + doy
  era * 146097 + doe - 719468

/-- CPython toordinal of a civil date: ordinal 1 is 0001-01-01. -/
def ordinalOfCivil (y : Int) (m d : Nat) : Int :=
  daysFromCivil y m d + 719163

/-- Civil date of a CPython ordinal. -/
def civilFromOrdinal (o : Int) : Int × Nat × Nat :=
  civilFromDays (o - 719163)

/-- Left-pad a string with zeros to the given width (Python zero-padding). -/
def padZeros (width : Nat) (s : String) : String :=
  if s.length < width then String.mk (List.replicate (width - s.length) '0') ++ s
  else s

/-- The strftime format YYYY-MM-DD of a civil date, with the year zero-padded
to four digits as documented for the Python %Y directive. -/
def isoOfCivil : Int × Nat × Nat → String
  | (y, m, d) =>
    padZeros 4 (toString y) ++ "-" ++ padZeros 2 (toString m) ++ "-" ++ padZeros 2 (toString d)

/-- Smallest valid CPython datetime ordinal (0001-01-01). -/
def datetimeMinOrdinal : Int := 1

/-- Largest valid CPython datetime ordinal (9999-12-31). -/
def datetimeMaxOrdinal : Int := 3652059

theorem ordinalOfCivil_min : ordinalOfCivil 1 1 1 = datetimeMinOrdinal := by decide

theorem ordinalOfCivil_max : ordinalOfCivil 9999 12 31 = datetimeMaxOrdinal := by decide

/-! ## utils.py: MATLAB datenum decoding

Source: src/nespreso_client/utils.py, function _datenum_to_iso_string (lines 29-36).
The Python code computes datetime(1,1,1) + timedelta(days = value - 366) and
formats it as %Y-%m-%d; any exception (in particular the OverflowError raised
when the shifted date leaves [datetime.min, datetime.max]) is caught and the
plain str(value) is returned instead. The embedding covers integer-valued
numeric inputs; for them the shifted datetime has ordinal 1 + (v - 366) =
v - 365, which is representable exactly when 366 <= v <= 3652424. -/

def datenum_to_iso_string (v : Int) : String :=
  let o : Int := v - 365
  if datetimeMinOrdinal ≤ o ∧ o ≤ datetimeMaxOrdinal then
    isoOfCivil (civilFromOrdinal o)
  else
    toString v

/-- Source: utils.py, convert_date_to_iso_strings (lines 52-53): arrays of
numeric dtype are decoded element-wise with the datenum rule. -/
def convert_date_to_iso_strings_numeric (dates : List Int) : List String :=
  dates.map datenum_to_iso_string

/-- Stated from the claim wording, for comparison with the code: the ISO
rendering of the proleptic Gregorian date 0001-01-01 plus (v - 366) days. -/
def claimIsoOfDatenum (v : Int) : String :=
  isoOfCivil (civilFromOrdinal (1 + (v - 366)))

example : datenum_to_iso_string 366 = "0001-01-01" := by decide

example : datenum_to_iso_string 738886 = "2023-01-01" := by decide

example : claimIsoOfDatenum 365 = "0000-12-31" := by decide

example : datenum_to_iso_string 365 = "365" := by decide

/-- C1 counterexample: the claim quantifies over every numeric day-count input,
but at v = 365 the shifted date (0000-12-31) is below datetime.min, the code
falls back to str(value) and returns "365", not the ISO rendering of
0001-01-01 plus (v - 366) days. -/
theorem c1_counterexample :
    datenum_to_iso_string 365 ≠ claimIsoOfDatenum 365 := by decide

/-- C1 (amended): for every integer day-count v whose shifted date stays within
the representable datetime range, that is 366 <= v <= 3652424, the decoded
string equals the ISO YYYY-MM-DD rendering of 0001-01-01 plus (v - 366) days,
and numeric date arrays are decoded element-wise by that rule. -/
theorem c1_amended (v : Int) (hlo : 366 ≤ v) (hhi : v ≤ 3652424) :
    datenum_to_iso_string v = claimIsoOfDatenum v ∧
    convert_date_to_iso_strings_numeric [v] = [claimIsoOfDatenum v] := by
  have ho : v - 365 = 1 + (v - 366) := by omega
  have h : datenum_to_iso_string v = claimIsoOfDatenum v := by
    unfold datenum_to_iso_string claimIsoOfDatenum
    rw [if_pos]
    · rw [ho]
    · unfold datetimeMinOrdinal datetimeMaxOrdinal
      omega
  exact ⟨h, by simpa [convert_date_to_iso_strings_numeric] using h⟩

/-- C1 witness: the amended statement instantiated at the day-count of
2023-01-01 under the documented offset-by-366 convention. -/
theorem c1_amended_witness :
    datenum_to_iso_string 738886 = claimIsoOfDatenum 738886 ∧
    convert_date_to_iso_strings_numeric [738886] = [claimIsoOfDatenum 738886] :=
  c1_amended 738886 (by decide) (by decide)

/-- C10: for every integer day-count v whose shifted date is not representable
as a CPython datetime (v < 366, which falls before year 1, or v > 3652424,
which falls after year 9999), the conversion returns the plain string rendering
of v itself; being a total function, it raises nothing. -/
theorem c10_datenum_fallback (v : Int) (h : v < 366 ∨ 3652424 < v) :
    datenum_to_iso_string v = toString v := by
  unfold datenum_to_iso_string
  rw [if_neg]
  unfold datetimeMinOrdinal datetimeMaxOrdinal
  omega

/-- C10 witness: at v = 0 the conversion returns the string rendering of 0. -/
theorem c10_datenum_fallback_witness :
    datenum_to_iso_string 0 = toString (0 : Int) :=
  c10_datenum_fallback 0 (Or.inl (by decide))

/-! ## profile.py: batch splitting (get_predictions_batch, lines 122-131)

The Python loop is `for start_index in range(0, total_points, batch_size)`,
with end_index = min(start_index + batch_size, total_points) and the batch
file named with the 1-based, 3-digit zero-padded index
start_index // batch_size + 1. pyRange embeds range(start, stop, step) for a
positive step (Python raises ValueError on step = 0; callers here always pass
a positive batch_size and the claim assumes B > 0). -/

def pyRange (start stop step : Nat) : List Nat :=
  if _h : 0 < step ∧ start < stop then
    start :: pyRange (start + step) stop step
  else
    []
termination_by stop - start
decreasing_by omega

/-- Python f-string directive 03d: decimal digits left-padded with zeros to
width three. -/
def pad3 (n : Nat) : String := padZeros 3 (toString n)

/-- Source: profile.py line 128, the per-batch output file name. -/
def batch_filename (pfx : String) (start_index batch_size : Nat) : String :=
  pfx ++ "_batch_" ++ pad3 (start_index / batch_size + 1) ++ ".nc"

/-- The index ranges (start_index, end_index) of the batches, in loop order. -/
def batch_ranges (total_points batch_size : Nat) : List (Nat × Nat) :=
  (pyRange 0 total_points batch_size).map
    (fun s => (s, min (s + batch_size) total_points))

/-- The per-batch file names, in loop order. -/
def batch_filenames (pfx : String) (total_points batch_size : Nat) : List String :=
  (pyRange 0 total_points batch_size).map (fun s => batch_filename pfx s batch_size)

theorem pyRange_eq_map (B : Nat) (hB : 0 < B) (s N : Nat) :
    pyRange s N B = (List.range ((N - s + B - 1) / B)).map (fun k => s + k * B) := by
  rw [pyRange]
  by_cases h : s < N
  · rw [dif_pos ⟨hB, h⟩, pyRange_eq_map B hB (s + B) N]
    have hc : (N - s + B - 1) / B = (N - (s + B) + B - 1) / B + 1 := by
      rcases Nat.lt_or_ge N (s + B) with hlt | hge
      · have h1 : N - (s + B) = 0 := by omega
        have h2 : N - s + B - 1 = (N - s - 1) + B := by omega
        rw [h1, h2, Nat.add_div_right _ hB, Nat.div_eq_of_lt (by omega),
          Nat.div_eq_of_lt (by omega)]
      · have h2 : N - s + B - 1 = (N - (s + B) + B - 1) + B := by omega
        rw [h2, Nat.add_div_right _ hB]
    rw [hc, List.range_succ_eq_map, List.map_cons, List.map_map]
    refine congrArg₂ List.cons (by omega) ?_
    exact List.map_congr_left (fun k _ => by simp [Function.comp]; ring)
  · rw [dif_neg (by omega)]
    have : N - s = 0 := by omega
    rw [this, Nat.zero_add, Nat.div_eq_of_lt (by omega), List.range_zero, List.map_nil]
termination_by N - s

theorem batch_cover (B : Nat) (hB : 0 < B) (s N : Nat) (hs : s ≤ N) :
    ((pyRange s N B).map
        (fun st => List.range' st (min (st + B) N - st))).flatten
      = List.range' s (N - s) := by
  rw [pyRange]
  by_cases h : s < N
  · rw [dif_pos ⟨hB, h⟩, List.map_cons, List.flatten_cons]
    rcases le_or_lt (s + B) N with hle | hlt
    · rw [batch_cover B hB (s + B) N hle]
      have hmin : min (s + B) N - s = B := by omega
      rw [hmin]
      have := List.range'_append s B (N - (s + B)) 1
      simp only [Nat.one_mul] at this
      rw [this]
      congr 1
      omega
    · have hempty : pyRange (s + B) N B = [] := by
        rw [pyRange, dif_neg (by omega)]
      rw [hempty, List.map_nil, List.flatten_nil, List.append_nil]
      congr 1
      omega
  · have hsN : s = N := by omega
    rw [dif_neg (by omega), hsN, Nat.sub_self, List.range'_zero, List.map_nil,
      List.flatten_nil]
termination_by N - s

/-- The add-then-divide form of the batch count is the ceiling of N / B. -/
theorem nat_ceil_div (N B : Nat) (hB : 0 < B) :
    ⌈(N : Rat) / (B : Rat)⌉₊ = (N + B - 1) / B := by
  rcases Nat.eq_zero_or_pos N with h0 | h0
  · subst h0
    simp [Nat.div_eq_of_lt (by omega : B - 1 < B)]
  · have hc := Nat.div_add_mod (N + B - 1) B
    have hmod := Nat.mod_lt (N + B - 1) hB
    set c := (N + B - 1) / B with hcdef
    have hc1 : 1 ≤ c := (Nat.one_le_div_iff hB).mpr (by omega)
    obtain ⟨k, hk⟩ : ∃ k, c = k + 1 := ⟨c - 1, by omega⟩
    have hsplit : B * c = B * k + B := by rw [hk]; ring
    have h1 : N ≤ B * c := by omega
    have h2 : B * k < N := by omega
    rw [Nat.ceil_eq_iff (by omega : c ≠ 0)]
    constructor
    · have hck : c - 1 = k := by omega
      rw [hck, lt_div_iff₀ (by positivity)]
      calc (k : Rat) * B = ((B * k : Nat) : Rat) := by push_cast; ring
        _ < N := by exact_mod_cast h2
    · rw [div_le_iff₀ (by positivity)]
      calc (N : Rat) ≤ ((B * c : Nat) : Rat) := by exact_mod_cast h1
        _ = (c : Rat) * B := by push_cast; ring

/-- C2: for every point-set size N and batch size B > 0, the loop produces
exactly ceil(N/B) = (N + B - 1) / B batches; the batches are exactly the
consecutive index ranges (k * B, min ((k + 1) * B) N) for k below the batch
count, in increasing k; concatenating the ranges reconstructs the index range
0..N-1 exactly once in order; and the k-th batch (1-based) is submitted under
the file name pfx followed by the batch marker, the index k zero-padded to
three digits, and the .nc suffix. -/
theorem c2_batching (N B : Nat) (pfx : String) (hB : 0 < B) :
    (batch_ranges N B).length = (N + B - 1) / B ∧
    (batch_ranges N B).length = ⌈(N : Rat) / (B : Rat)⌉₊ ∧
    batch_ranges N B =
      (List.range ((N + B - 1) / B)).map (fun k => (k * B, min ((k + 1) * B) N)) ∧
    ((batch_ranges N B).map (fun p => List.range' p.1 (p.2 - p.1))).flatten
      = List.range N ∧
    batch_filenames pfx N B =
      (List.range ((N + B - 1) / B)).map
        (fun k => pfx ++ "_batch_" ++ pad3 (k + 1) ++ ".nc") := by
  have hmap := pyRange_eq_map B hB 0 N
  have hN0 : N - 0 = N := by omega
  rw [hN0] at hmap
  have hlen : (batch_ranges N B).length = (N + B - 1) / B := by
    rw [batch_ranges, hmap, List.length_map, List.length_map, List.length_range]
  refine ⟨hlen, ?_, ?_, ?_, ?_⟩
  · rw [hlen, nat_ceil_div N B hB]
  · rw [batch_ranges, hmap, List.map_map]
    exact List.map_congr_left (fun k _ => by simp [Function.comp, Nat.succ_mul])
  · have := batch_cover B hB 0 N (Nat.zero_le N)
    rw [batch_ranges, List.map_map]
    have harg :
        ((fun p : Nat × Nat => List.range' p.1 (p.2 - p.1)) ∘
            fun s => (s, min (s + B) N))
          = fun st => List.range' st (min (st + B) N - st) := rfl
    rw [harg, this, hN0, List.range_eq_range']
  · rw [batch_filenames, hmap, List.map_map]
    exact List.map_congr_left (fun k _ => by
      simp [Function.comp, batch_filename]
      rw [Nat.mul_div_cancel k hB])

/-- C2 witness: the scenario from the spec, N = 2500 and B = 1000, instantiated
through the theorem. -/
theorem c2_batching_witness :
    (batch_ranges 2500 1000).length = (2500 + 1000 - 1) / 1000 ∧
    (batch_ranges 2500 1000).length = ⌈(2500 : Rat) / (1000 : Rat)⌉₊ ∧
    batch_ranges 2500 1000 =
      (List.range ((2500 + 1000 - 1) / 1000)).map
        (fun k => (k * 1000, min ((k + 1) * 1000) 2500)) ∧
    ((batch_ranges 2500 1000).map (fun p => List.range' p.1 (p.2 - p.1))).flatten
      = List.range 2500 ∧
    batch_filenames "output" 2500 1000 =
      (List.range ((2500 + 1000 - 1) / 1000)).map
        (fun k => "output" ++ "_batch_" ++ pad3 (k + 1) ++ ".nc") :=
  c2_batching 2500 1000 "output" (by decide)

example : batch_ranges 2500 1000 = [(0, 1000), (1000, 2000), (2000, 2500)] := by
  rw [batch_ranges, pyRange_eq_map 1000 (by decide) 0 2500]
  decide

example : batch_filenames "output" 2500 1000 =
    ["output_batch_001.nc", "output_batch_002.nc", "output_batch_003.nc"] := by
  rw [batch_filenames, pyRange_eq_map 1000 (by decide) 0 2500]
  decide

/-! ## profile.py: outcome handling after all batches (lines 152-174)

After the loop, get_predictions_batch holds the ordered list of successful
batch file paths and decides what to return. The merge capability is passed as
a function returning some path on success and none on failure, mirroring
merge_netcdf_files. The returned Bool records whether the merge step was
invoked. -/

/-- A Python return value that is either a single filename or a list of
filenames. -/
inductive BatchReturn where
  | file (f : String)
  | files (fs : List String)
deriving DecidableEq

/-- Source: profile.py lines 155-158, the merged output file name. -/
def final_output_name (pfx : String) : String :=
  if pfx.endsWith ".nc" then pfx else pfx ++ ".nc"

/-- Source: profile.py lines 152-174. In the single-success branch the source
indexes successful_files[0]; the empty-list arm of the inner match is
unreachable there because the guard fixes the length to one. -/
def handle_batch_results (merge_output : Bool) (pfx : String)
    (merge : List String → String → Option String)
    (successful_files : List String) : BatchReturn × Bool :=
  if merge_output = true ∧ 1 < successful_files.length then
    match merge successful_files (final_output_name pfx) with
    | some merged => (.file merged, true)
    | none => (.files successful_files, true)
  else if successful_files.length = 1 then
    (match successful_files with
     | f :: _ => .file f
     | [] => .files [], false)
  else
    (.files successful_files, false)

/-- C3: if merging was requested and at least two batches succeeded, the merge
step is invoked and its output path returned on merge success, while on merge
failure the ordered list of successful batch file paths is returned; if exactly
one batch succeeded, that single file path is returned directly and merge is
not invoked, regardless of the merge setting; if zero batches succeeded, the
empty list is returned and merge is not invoked. -/
theorem c3_outcome_handling (pfx : String)
    (merge : List String → String → Option String) (files : List String) :
    (∀ m, 2 ≤ files.length → merge files (final_output_name pfx) = some m →
      handle_batch_results true pfx merge files = (.file m, true)) ∧
    (2 ≤ files.length → merge files (final_output_name pfx) = none →
      handle_batch_results true pfx merge files = (.files files, true)) ∧
    (∀ mo f, files = [f] →
      handle_batch_results mo pfx merge files = (.file f, false)) ∧
    (∀ mo, files = [] →
      handle_batch_results mo pfx merge files = (.files [], false)) := by
  refine ⟨?_, ?_, ?_, ?_⟩
  · intro m hlen hm
    rw [handle_batch_results.eq_def, if_pos ⟨rfl, by omega⟩, hm]
  · intro hlen hm
    rw [handle_batch_results.eq_def, if_pos ⟨rfl, by omega⟩, hm]
  · intro mo f hf
    subst hf
    rw [handle_batch_results.eq_def, if_neg (by simp), if_pos (by simp)]
  · intro mo hf
    subst hf
    rw [handle_batch_results.eq_def, if_neg (by simp), if_neg (by simp)]

/-- C3 witness: two successful batches with a merge capability that succeeds
yield the merged file, with merge invoked. -/
theorem c3_outcome_handling_witness :
    handle_batch_results true "output" (fun _ _ => some "output.nc")
      ["output_batch_001.nc", "output_batch_002.nc"]
      = (.file "output.nc", true) :=
  (c3_outcome_handling "output" (fun _ _ => some "output.nc")
      ["output_batch_001.nc", "output_batch_002.nc"]).1
    "output.nc" (by decide) rfl

/-! ## profile.py: merge_netcdf_files (lines 195-218)

The scientific-file library is the external capability the spec names:
xr.concat along the profile_number dimension concatenates both the records and
the profile_number coordinate values of the inputs in list order, and
assign_coords replaces the coordinate. A dataset is modelled by its record
list along profile_number together with that coordinate list; a well-formed
NetCDF dataset carries one coordinate value per record. -/

structure NcDataset (R : Type) where
  records : List R
  profile_number : List Int
deriving DecidableEq

/-- External capability: xarray concat along the profile_number dimension. -/
def xr_concat_profile_number {R : Type} (dss : List (NcDataset R)) : NcDataset R :=
  ⟨(dss.map NcDataset.records).flatten, (dss.map NcDataset.profile_number).flatten⟩

/-- External capability: numpy arange as a list of integers. -/
def np_arange (n : Nat) : List Int := (List.range n).map Int.ofNat

/-- Source: profile.py lines 189-218 (the failure arms for a missing xarray
dependency and for merge-library exceptions are effects outside the data
model; the empty-input arm and the data transformation are embedded). -/
def merge_netcdf_files {R : Type} (file_list : List (NcDataset R)) :
    Option (NcDataset R) :=
  if file_list.isEmpty then none
  else
    let merged := xr_concat_profile_number file_list
    some ⟨merged.records, np_arange merged.profile_number.length⟩

/-- C8: for every non-empty ordered list of well-formed input datasets, the
merge concatenates the records along the record dimension in the given input
order and renumbers the record-dimension coordinate to the contiguous integer
sequence from 0 to the total record count; in particular merging two files
with k1 and k2 records yields k1 + k2 records indexed 0..k1+k2-1 in input
order. -/
theorem c8_merge (R : Type) :
    (∀ dss : List (NcDataset R), dss ≠ [] →
      (∀ ds ∈ dss, ds.profile_number.length = ds.records.length) →
      merge_netcdf_files dss =
        some ⟨(dss.map NcDataset.records).flatten,
          np_arange (dss.map NcDataset.records).flatten.length⟩) ∧
    (∀ d1 d2 : NcDataset R,
      d1.profile_number.length = d1.records.length →
      d2.profile_number.length = d2.records.length →
      merge_netcdf_files [d1, d2] =
        some ⟨d1.records ++ d2.records,
          np_arange (d1.records.length + d2.records.length)⟩) := by
  have key : ∀ dss : List (NcDataset R), dss ≠ [] →
      (∀ ds ∈ dss, ds.profile_number.length = ds.records.length) →
      merge_netcdf_files dss =
        some ⟨(dss.map NcDataset.records).flatten,
          np_arange (dss.map NcDataset.records).flatten.length⟩ := by
    intro dss hne hwf
    rw [merge_netcdf_files, if_neg (by simpa using hne)]
    have hlen : (dss.map NcDataset.profile_number).flatten.length
        = (dss.map NcDataset.records).flatten.length := by
      rw [List.length_flatten, List.length_flatten, List.map_map, List.map_map]
      exact congrArg List.sum (List.map_congr_left (fun ds hds => hwf ds hds))
    rw [xr_concat_profile_number]
    exact congrArg some (congrArg _ (congrArg np_arange hlen))
  refine ⟨key, ?_⟩
  intro d1 d2 h1 h2
  rw [key [d1, d2] (by simp) (by
    intro ds hds
    simp only [List.mem_cons, List.not_mem_nil, or_false] at hds
    rcases hds with h | h
    · rw [h]; exact h1
    · rw [h]; exact h2)]
  simp

/-- C8 witness: merging a two-record dataset with a one-record dataset yields
three records in input order, renumbered 0, 1, 2. -/
theorem c8_merge_witness :
    merge_netcdf_files [⟨[10, 20], [0, 1]⟩, ⟨[30], [5]⟩] =
      some (⟨[10, 20, 30], [0, 1, 2]⟩ : NcDataset Nat) := by
  rw [(c8_merge Nat).2 ⟨[10, 20], [0, 1]⟩ ⟨[30], [5]⟩ rfl rfl]
  decide

/-! ## profile.py: fetch_predictions response handling (lines 46-71)

The single POST either raises a transport-level exception (caught by the
try/except around the client call) or yields a response with a status code,
a Content-Type header value (headers.get with default empty string) and a
body text. Writing the body to the output file may itself fail; write_ok
models whether the open/write succeeded. The first component of the result is
the Python return value (the filename on success, None on failure); the second
component is the list of printed diagnostic lines. -/

inductive PostOutcome where
  | exn (msg : String)
  | resp (status : Nat) (contentType : String) (text : String)

def netcdfMediaType : String := "application/x-netcdf"

def fetch_predictions (o : PostOutcome) (write_ok : Bool)
    (filename : String) : Option String × List String :=
  match o with
  | .exn msg => (none, ["HTTP error: " ++ msg])
  | .resp status ct text =>
    if status ≠ 200 then
      (none, ["Request failed: " ++ toString status ++ " - " ++ text.take 200])
    else if ¬ ct.startsWith netcdfMediaType then
      (none, ["Unexpected content type: " ++ ct])
    else if write_ok then (some filename, [])
    else (none, ["Failed to write " ++ filename])

/-- C4: fetch_predictions returns failure (None) when the status code is not
200; returns failure when the declared Content-Type does not start with the
NetCDF media type even if the status is 200; on a transport-level exception it
returns failure together with a printed diagnostic instead of propagating; and
it returns the output filename exactly when the status is 200, the content
type matches, and the body was written successfully. -/
theorem c4_fetch_predictions (o : PostOutcome) (write_ok : Bool) (fn : String) :
    (∀ s ct t, o = .resp s ct t → s ≠ 200 →
      (fetch_predictions o write_ok fn).1 = none) ∧
    (∀ ct t, o = .resp 200 ct t → ct.startsWith netcdfMediaType = false →
      (fetch_predictions o write_ok fn).1 = none) ∧
    (∀ m, o = .exn m →
      (fetch_predictions o write_ok fn).1 = none ∧
      (fetch_predictions o write_ok fn).2 = ["HTTP error: " ++ m]) ∧
    ((fetch_predictions o write_ok fn).1.isSome ↔
      (∃ ct t, o = .resp 200 ct t ∧ ct.startsWith netcdfMediaType = true) ∧
        write_ok = true) ∧
    ((fetch_predictions o write_ok fn).1 = none ∨
      (fetch_predictions o write_ok fn).1 = some fn) := by
  refine ⟨?_, ?_, ?_, ?_, ?_⟩
  · intro s ct t ho hs
    subst ho
    simp [fetch_predictions, hs]
  · intro ct t ho hct
    subst ho
    simp [fetch_predictions, hct]
  · intro m ho
    subst ho
    simp [fetch_predictions]
  · cases o with
    | exn m => simp [fetch_predictions]
    | resp s ct t =>
      by_cases hs : s = 200
      · subst hs
        by_cases hct : ct.startsWith netcdfMediaType
        · cases write_ok <;> simp [fetch_predictions, hct]
        · simp [fetch_predictions, hct]
      · simp [fetch_predictions, hs]
  · cases o with
    | exn m => simp [fetch_predictions]
    | resp s ct t =>
      by_cases hs : s = 200
      · subst hs
        by_cases hct : ct.startsWith netcdfMediaType
        · cases write_ok <;> simp [fetch_predictions, hct]
        · simp [fetch_predictions, hct]
      · simp [fetch_predictions, hs]

/-- C4 witness: a 200 response declaring text/html is rejected even though the
status is 200. -/
theorem c4_fetch_predictions_witness :
    (fetch_predictions (.resp 200 "text/html" "oops") true "output.nc").1
      = none :=
  (c4_fetch_predictions (.resp 200 "text/html" "oops") true "output.nc").2.1
    "text/html" "oops" rfl (by decide)

/-! ## Transport configuration of the two call sites (claim C7)

profile.py lines 44-47 construct httpx.Timeout(DEFAULT_TIMEOUT,
connect=DEFAULT_CONNECT_TIMEOUT) with DEFAULT_TIMEOUT = 1800 and
DEFAULT_CONNECT_TIMEOUT = 10.0, and an AsyncClient with
follow_redirects=False. grid.py line 79 calls requests.post with the single
scalar timeout=DEFAULT_TIMEOUT = 600; the requests library applies a scalar
timeout to both the connection and the read budget, and requests.post follows
redirects by default (allow_redirects=True). -/

structure TransportConfig where
  connect_timeout_seconds : Rat
  timeout_seconds : Rat
  follow_redirects : Bool
deriving DecidableEq

/-- The transport settings of the profile POST (profile.py lines 14-16, 44-47). -/
def fetch_predictions_transport : TransportConfig := ⟨10, 1800, false⟩

/-- The transport settings of the grid POST (grid.py lines 13, 79). -/
def query_grid_transport : TransportConfig := ⟨600, 600, true⟩

/-- Stated from the claim wording, for comparison with the code: the grid POST
applies the same transport policy as the profile POST, with a short connect
budget distinct from the long completion budget and no redirect following. -/
def claimedGridTransportPolicy : Prop :=
  query_grid_transport = fetch_predictions_transport ∧
  query_grid_transport.connect_timeout_seconds
    < query_grid_transport.timeout_seconds ∧
  query_grid_transport.follow_redirects = false

/-- C7 counterexample: the grid POST does not apply the profile transport
policy; its two timeout budgets coincide at 600 seconds and it follows
redirects. -/
theorem c7_counterexample : ¬ claimedGridTransportPolicy := by
  intro h
  exact absurd h.2.2 (by decide)

/-- C7 (amended): the grid POST uses a single 600-second budget for both
connection establishment and reading, and follows redirects, unlike the
profile transport, which uses a 10-second connect budget, an 1800-second
completion budget, and no redirect following. -/
theorem c7_amended :
    query_grid_transport.connect_timeout_seconds = 600 ∧
    query_grid_transport.timeout_seconds = 600 ∧
    query_grid_transport.follow_redirects = true ∧
    fetch_predictions_transport.connect_timeout_seconds = 10 ∧
    fetch_predictions_transport.timeout_seconds = 1800 ∧
    fetch_predictions_transport.follow_redirects = false ∧
    query_grid_transport ≠ fetch_predictions_transport := by
  refine ⟨rfl, rfl, rfl, rfl, rfl, rfl, by decide⟩

/-! ## CPython strptime with format %Y-%m-%d

The _strptime regular expressions are, in alternation order, four digits for
%Y, then 1[0-2] or 0[1-9] or [1-9] for %m, and 3[01] or [12] with a digit or
0[1-9] or [1-9] for %d; the match must consume the whole string, and the
datetime constructor then rejects year 0 and a day beyond the month length.
When a two-digit alternative matches, the one-digit alternative cannot lead to
an overall match, because the following literal is a dash or the end of the
string and never a digit; the deterministic longest-first parse below is
therefore equivalent to the backtracking regex. -/

def digitVal (c : Char) : Nat := c.toNat - 48

def parseYear4 : List Char → Option (Nat × List Char)
  | a :: b :: c :: d :: rest =>
    if a.isDigit ∧ b.isDigit ∧ c.isDigit ∧ d.isDigit then
      some (digitVal a * 1000 + digitVal b * 100 + digitVal c * 10 + digitVal d,
        rest)
    else none
  | _ => none

def parseMonth : List Char → Option (Nat × List Char)
  | c1 :: c2 :: rest =>
    if c1 = '1' ∧ (c2 = '0' ∨ c2 = '1' ∨ c2 = '2') then
      some (10 + digitVal c2, rest)
    else if c1 = '0' ∧ ('1' ≤ c2 ∧ c2 ≤ '9') then
      some (digitVal c2, rest)
    else if '1' ≤ c1 ∧ c1 ≤ '9' then
      some (digitVal c1, c2 :: rest)
    else none
  | [c1] => if '1' ≤ c1 ∧ c1 ≤ '9' then some (digitVal c1, []) else none
  | [] => none

def parseDay : List Char → Option (Nat × List Char)
  | c1 :: c2 :: rest =>
    if c1 = '3' ∧ (c2 = '0' ∨ c2 = '1') then
      some (30 + digitVal c2, rest)
    else if (c1 = '1' ∨ c1 = '2') ∧ c2.isDigit then
      some (digitVal c1 * 10 + digitVal c2, rest)
    else if c1 = '0' ∧ ('1' ≤ c2 ∧ c2 ≤ '9') then
      some (digitVal c2, rest)
    else if '1' ≤ c1 ∧ c1 ≤ '9' then
      some (digitVal c1, c2 :: rest)
    else none
  | [c1] => if '1' ≤ c1 ∧ c1 ≤ '9' then some (digitVal c1, []) else none
  | [] => none

def isLeapYear (y : Nat) : Bool :=
  (y % 4 == 0 && y % 100 != 0) || y % 400 == 0

def daysInMonth (y m : Nat) : Nat :=
  if m = 2 then (if isLeapYear y then 29 else 28)
  else if m = 4 ∨ m = 6 ∨ m = 9 ∨ m = 11 then 30
  else 31

/-- datetime.strptime(s, the dashed year-month-day format), returning the
(year, month, day) triple on success and none where CPython raises
ValueError. -/
def strptime_Ymd (s : String) : Option (Nat × Nat × Nat) :=
  match parseYear4 s.data with
  | none => none
  | some (y, r1) =>
    match r1 with
    | '-' :: r2 =>
      (match parseMonth r2 with
      | none => none
      | some (m, r3) =>
        match r3 with
        | '-' :: r4 =>
          (match parseDay r4 with
          | none => none
          | some (d, r5) =>
            if r5 = [] ∧ 1 ≤ y ∧ d ≤ daysInMonth y m then some (y, m, d)
            else none)
        | _ => none)
    | _ => none

example : strptime_Ymd "2024-03-01" = some (2024, 3, 1) := by decide

example : strptime_Ymd "2024-2-29" = some (2024, 2, 29) := by decide

example : strptime_Ymd "2023-02-29" = none := by decide

example : strptime_Ymd "2024-13-01" = none := by decide

example : strptime_Ymd "0000-05-05" = none := by decide

example : strptime_Ymd "2024-03-01x" = none := by decide

/-! ## Python fixed-point string formatting

The f-string directives .2f and .3f round the value to the given number of
decimals with ties going to the even last digit, and render sign, integer
part, a dot, and the zero-padded fractional digits. The bbox and resolution
values are modelled as rationals; the double-precision representation error
of decimal literals is outside the model. -/

/-- Round n * p / d (d positive) to the nearest integer, ties to even. -/
def roundScaledHalfEven (n : Int) (d p : Nat) : Int :=
  let np : Int := n * (p : Int)
  let f : Int := np.fdiv (d : Int)
  let r : Int := np.fmod (d : Int)
  if 2 * r < (d : Int) then f
  else if (d : Int) < 2 * r then f + 1
  else if f % 2 = 0 then f else f + 1

/-- Python fixed-point formatting of the exact rational q with the given
number of decimals: the value q * 10 ^ decimals is rounded half-to-even, the
sign taken from q, and the fractional digits zero-padded. -/
def fmtFixed (decimals : Nat) (q : Rat) : String :=
  let p : Nat := 10 ^ decimals
  let m : Int := roundScaledHalfEven q.num q.den p
  let sign : String := if q.num < 0 then "-" else ""
  let a : Nat := m.natAbs
  sign ++ toString (a / p) ++ "." ++ padZeros decimals (toString (a % p))

example : fmtFixed 2 (-100) = "-100.00" := by decide

example : fmtFixed 2 (mkRat (-97) 2) = "-48.50" := by decide

example : fmtFixed 3 (mkRat 1 4) = "0.250" := by decide

example : fmtFixed 3 (mkRat 1 3) = "0.333" := by decide

example : fmtFixed 2 (mkRat 1 8) = "0.12" := by decide

/-! ## grid.py: query_grid (lines 23-130)

The bbox argument is modelled as an optional list whose entries are some q
when the Python float() coercion of the entry succeeds with value q and none
when it raises; the resolution argument likewise. The network interaction is
an outcome parameter; the second component of the result records whether the
POST was issued. The returned dictionaries are embedded as GridReturn. The
os.path.join of the output directory and file name is rendered with the posix
separator. -/

def GRID_OUTPUT_DIR : String := "uses/grid"

inductive GridServer where
  | timeout
  | reqExn (msg : String)
  | otherExn (msg : String)
  | resp (status : Nat) (bodyBytes : Nat) (text : String)

inductive GridReturn where
  | ok (filename : String) (size_bytes : Nat) (status_code : Nat)
  | err (error : String)
  | errStatus (status_code : Nat) (error : String)
deriving DecidableEq

def msgInvalidDate : String := "Invalid date. Use YYYY-MM-DD."

def msgInvalidBbox : String :=
  "Invalid bbox. Use [lon_min, lat_min, lon_max, lat_max]."

def msgInvalidBboxValues : String :=
  "Invalid bbox values. Must be numeric [lon_min, lat_min, lon_max, lat_max]."

def msgBboxRange : String :=
  "BBOX out of range. Lon in [-180,180], Lat in [-90,90]."

def msgBboxOrder : String :=
  "BBOX order invalid. Require lon_min < lon_max and lat_min < lat_max."

def msgResolutionNum : String := "Resolution must be a positive number (degrees)."

def msgResolutionPos : String := "Resolution must be > 0 (degrees)."

/-- Source: grid.py lines 81-92, the output file name of a successful query. -/
def grid_output_filename (date_str : String) (bbox : Option (Rat × Rat × Rat × Rat))
    (resolution : Option Rat) : String :=
  "nespreso_grid_" ++ date_str
    ++ (match bbox with
        | some (a, b, c, d) =>
          "_bbox_" ++ fmtFixed 2 a ++ "_" ++ fmtFixed 2 b ++ "_"
            ++ fmtFixed 2 c ++ "_" ++ fmtFixed 2 d
        | none => "")
    ++ (match resolution with
        | some r => "_res_" ++ fmtFixed 3 r
        | none => "")
    ++ ".nc"

/-- Source: grid.py lines 77-130, the request stage reached once every
validation passed. -/
def query_grid_send (date_str : String) (bbox : Option (Rat × Rat × Rat × Rat))
    (resolution : Option Rat) (server : GridServer) : GridReturn × Bool :=
  match server with
  | .resp status bodyBytes text =>
    if status = 200 then
      (.ok (GRID_OUTPUT_DIR ++ "/" ++ grid_output_filename date_str bbox resolution)
        bodyBytes status, true)
    else (.errStatus status text, true)
  | .timeout => (.err "Request timed out", true)
  | .reqExn m => (.err m, true)
  | .otherExn m => (.err m, true)

/-- Source: grid.py lines 55-62, the resolution validation stage. -/
def query_grid_resolution (date_str : String) (bbox : Option (Rat × Rat × Rat × Rat))
    (resolution : Option (Option Rat)) (server : GridServer) : GridReturn × Bool :=
  match resolution with
  | none => query_grid_send date_str bbox none server
  | some none => (.err msgResolutionNum, false)
  | some (some r) =>
    if r ≤ 0 then (.err msgResolutionPos, false)
    else query_grid_send date_str bbox (some r) server

/-- Source: grid.py lines 23-130. Validation order follows the source: date,
then bbox shape, bbox numeric coercion, bbox range, bbox order, then
resolution; only afterwards is the POST issued. -/
def query_grid (date_str : String) (bbox : Option (List (Option Rat)))
    (resolution : Option (Option Rat)) (server : GridServer) : GridReturn × Bool :=
  match strptime_Ymd date_str with
  | none => (.err msgInvalidDate, false)
  | some _ =>
    match bbox with
    | some l =>
      if l.length ≠ 4 then (.err msgInvalidBbox, false)
      else
        match l with
        | [some lon_min, some lat_min, some lon_max, some lat_max] =>
          if ¬ (-180 ≤ lon_min ∧ lon_min ≤ 180 ∧ -180 ≤ lon_max ∧ lon_max ≤ 180
              ∧ -90 ≤ lat_min ∧ lat_min ≤ 90 ∧ -90 ≤ lat_max ∧ lat_max ≤ 90) then
            (.err msgBboxRange, false)
          else if ¬ (lon_min < lon_max ∧ lat_min < lat_max) then
            (.err msgBboxOrder, false)
          else
            query_grid_resolution date_str
              (some (lon_min, lat_min, lon_max, lat_max)) resolution server
        | _ => (.err msgInvalidBboxValues, false)
    | none => query_grid_resolution date_str none resolution server

/-- A bbox argument that passes the bbox validation stage: absent, or four
numeric in-range properly ordered bounds. -/
def bboxAccepted (bbox : Option (List (Option Rat))) : Prop :=
  bbox = none ∨
    ∃ a b c d : Rat, bbox = some [some a, some b, some c, some d] ∧
      (-180 ≤ a ∧ a ≤ 180 ∧ -180 ≤ c ∧ c ≤ 180 ∧ -90 ≤ b ∧ b ≤ 90
        ∧ -90 ≤ d ∧ d ≤ 90) ∧ (a < c ∧ b < d)

/-- C5: query_grid fails without issuing the POST when the date does not parse
as YYYY-MM-DD, when a given bbox does not have exactly four entries, when one
of its four entries is not numerically coercible, when a bound leaves the
valid longitude or latitude interval, when the bounds are not properly
ordered, and when a given resolution is not coercible or not strictly
positive; each violated rule produces its own error message, and the messages
are pairwise distinct. -/
theorem c5_grid_validation (d : String) (bbox : Option (List (Option Rat)))
    (res : Option (Option Rat)) (server : GridServer) :
    (strptime_Ymd d = none →
      query_grid d bbox res server = (.err msgInvalidDate, false)) ∧
    (∀ l, strptime_Ymd d ≠ none → bbox = some l → l.length ≠ 4 →
      query_grid d bbox res server = (.err msgInvalidBbox, false)) ∧
    (∀ x1 x2 x3 x4 : Option Rat, strptime_Ymd d ≠ none →
      bbox = some [x1, x2, x3, x4] →
      (x1 = none ∨ x2 = none ∨ x3 = none ∨ x4 = none) →
      query_grid d bbox res server = (.err msgInvalidBboxValues, false)) ∧
    (∀ a b c dd : Rat, strptime_Ymd d ≠ none →
      bbox = some [some a, some b, some c, some dd] →
      ¬ (-180 ≤ a ∧ a ≤ 180 ∧ -180 ≤ c ∧ c ≤ 180 ∧ -90 ≤ b ∧ b ≤ 90
          ∧ -90 ≤ dd ∧ dd ≤ 90) →
      query_grid d bbox res server = (.err msgBboxRange, false)) ∧
    (∀ a b c dd : Rat, strptime_Ymd d ≠ none →
      bbox = some [some a, some b, some c, some dd] →
      (-180 ≤ a ∧ a ≤ 180 ∧ -180 ≤ c ∧ c ≤ 180 ∧ -90 ≤ b ∧ b ≤ 90
        ∧ -90 ≤ dd ∧ dd ≤ 90) →
      ¬ (a < c ∧ b < dd) →
      query_grid d bbox res server = (.err msgBboxOrder, false)) ∧
    (strptime_Ymd d ≠ none → bboxAccepted bbox → res = some none →
      query_grid d bbox res server = (.err msgResolutionNum, false)) ∧
    (∀ r : Rat, strptime_Ymd d ≠ none → bboxAccepted bbox →
      res = some (some r) → r ≤ 0 →
      query_grid d bbox res server = (.err msgResolutionPos, false)) ∧
    [msgInvalidDate, msgInvalidBbox, msgInvalidBboxValues, msgBboxRange,
      msgBboxOrder, msgResolutionNum, msgResolutionPos].Nodup := by
  refine ⟨?_, ?_, ?_, ?_, ?_, ?_, ?_, ?_⟩
  · intro hd
    simp [query_grid, hd]
  · intro l hd hb hlen
    obtain ⟨p, hp⟩ := Option.ne_none_iff_exists'.mp hd
    subst hb
    simp [query_grid, hp, hlen]
  · intro x1 x2 x3 x4 hd hb hnone
    obtain ⟨p, hp⟩ := Option.ne_none_iff_exists'.mp hd
    subst hb
    cases x1 <;> cases x2 <;> cases x3 <;> cases x4 <;>
      simp_all [query_grid, hp]
  · intro a b c dd hd hb hrange
    obtain ⟨p, hp⟩ := Option.ne_none_iff_exists'.mp hd
    subst hb
    simp only [query_grid, hp]
    rw [if_neg (by simp), if_pos hrange]
  · intro a b c dd hd hb hrange horder
    obtain ⟨p, hp⟩ := Option.ne_none_iff_exists'.mp hd
    subst hb
    simp only [query_grid, hp]
    rw [if_neg (by simp), if_neg (by simpa using hrange), if_pos horder]
  · intro hd hbb hres
    obtain ⟨p, hp⟩ := Option.ne_none_iff_exists'.mp hd
    subst hres
    rcases hbb with hb | ⟨a, b, c, dd, hb, hrange, horder⟩
    · subst hb
      simp [query_grid, hp, query_grid_resolution]
    · subst hb
      simp only [query_grid, hp]
      rw [if_neg (by simp), if_neg (by simpa using hrange),
        if_neg (by simpa using horder)]
      simp [query_grid_resolution]
  · intro r hd hbb hres hr
    obtain ⟨p, hp⟩ := Option.ne_none_iff_exists'.mp hd
    subst hres
    rcases hbb with hb | ⟨a, b, c, dd, hb, hrange, horder⟩
    · subst hb
      simp [query_grid, hp, query_grid_resolution, hr]
    · subst hb
      simp only [query_grid, hp]
      rw [if_neg (by simp), if_neg (by simpa using hrange),
        if_neg (by simpa using horder)]
      simp [query_grid_resolution, hr]
  · decide

/-- C5 witness: the out-of-range bbox from the spec testable properties, with
longitude -200, is rejected with the range message and no POST is issued. -/
theorem c5_grid_validation_witness :
    query_grid "2024-03-01" (some [some (-200), some 10, some (-90), some 20])
      none .timeout = (.err msgBboxRange, false) :=
  (c5_grid_validation "2024-03-01"
      (some [some (-200), some 10, some (-90), some 20]) none .timeout).2.2.2.1
    (-200) 10 (-90) 20 (by decide) rfl (by decide)

/-- C6: a successful grid query saves under the grid output directory with the
name nespreso_grid_ followed by the date; a given bbox additionally embeds its
four bounds formatted to two decimal places, a given resolution additionally
embeds the resolution formatted to three decimal places, and the date
2024-03-01 with no optional fields yields nespreso_grid_2024-03-01.nc. -/
theorem c6_grid_filename (d : String) :
    grid_output_filename d none none = "nespreso_grid_" ++ d ++ ".nc" ∧
    grid_output_filename "2024-03-01" none none = "nespreso_grid_2024-03-01.nc" ∧
    (∀ a b c dd : Rat, grid_output_filename d (some (a, b, c, dd)) none =
      "nespreso_grid_" ++ d ++ "_bbox_" ++ fmtFixed 2 a ++ "_" ++ fmtFixed 2 b
        ++ "_" ++ fmtFixed 2 c ++ "_" ++ fmtFixed 2 dd ++ ".nc") ∧
    (∀ r : Rat, grid_output_filename d none (some r) =
      "nespreso_grid_" ++ d ++ "_res_" ++ fmtFixed 3 r ++ ".nc") ∧
    (∀ a b c dd r : Rat, grid_output_filename d (some (a, b, c, dd)) (some r) =
      "nespreso_grid_" ++ d ++ "_bbox_" ++ fmtFixed 2 a ++ "_" ++ fmtFixed 2 b
        ++ "_" ++ fmtFixed 2 c ++ "_" ++ fmtFixed 2 dd
        ++ "_res_" ++ fmtFixed 3 r ++ ".nc") ∧
    (∀ (bb : Option (Rat × Rat × Rat × Rat)) (rr : Option Rat) (n : Nat)
        (t : String),
      query_grid_send d bb rr (.resp 200 n t) =
        (.ok (GRID_OUTPUT_DIR ++ "/" ++ grid_output_filename d bb rr) n 200,
          true)) := by
  refine ⟨?_, by decide, ?_, ?_, ?_, ?_⟩
  · simp [grid_output_filename]
  · intro a b c dd
    simp [grid_output_filename, String.append_assoc]
  · intro r
    simp [grid_output_filename, String.append_assoc]
  · intro a b c dd r
    simp [grid_output_filename, String.append_assoc]
  · intro bb rr n t
    simp [query_grid_send]

example :
    grid_output_filename "2024-03-01" (some (-100, 10, -90, 20)) (some (mkRat 1 4))
      = "nespreso_grid_2024-03-01_bbox_-100.00_10.00_-90.00_20.00_res_0.250.nc" := by
  decide

/-! ## grid.py: generate_date_range (lines 171-184)

The two datetime.strptime calls are unguarded: an input that does not parse
raises ValueError out of the public function. The embedding returns
Except.error for a propagated exception and Except.ok for a normal return.
The while loop walks one day at a time from the start date to the end date
inclusive, formatting each as YYYY-MM-DD; its result is the list of ISO
strings of the consecutive ordinals from the start ordinal to the end
ordinal. -/

def generate_date_range (start_date end_date : String) :
    Except String (List String) :=
  match strptime_Ymd start_date with
  | none =>
    .error ("ValueError: time data " ++ start_date
      ++ " does not match the expected format")
  | some (y1, m1, d1) =>
    match strptime_Ymd end_date with
    | none =>
      .error ("ValueError: time data " ++ end_date
        ++ " does not match the expected format")
    | some (y2, m2, d2) =>
      let a : Int := ordinalOfCivil (Int.ofNat y1) m1 d1
      let b : Int := ordinalOfCivil (Int.ofNat y2) m2 d2
      .ok ((List.range (b + 1 - a).toNat).map
        (fun i => isoOfCivil (civilFromOrdinal (a + Int.ofNat i))))

example :
    generate_date_range "2024-02-27" "2024-03-02" =
      .ok ["2024-02-27", "2024-02-28", "2024-02-29", "2024-03-01", "2024-03-02"] := by
  rfl

/-- C9 counterexample: generate_date_range is a public operation (exported by
the package root), yet on an input date that does not parse it propagates the
strptime ValueError to the caller instead of returning a structured result. -/
theorem c9_counterexample :
    generate_date_range "2024-02-30" "2024-03-01" =
      .error ("ValueError: time data 2024-02-30"
        ++ " does not match the expected format") := by
  rfl

/-- C9 (amended): the transport-facing operations return structured results,
but generate_date_range raises ValueError on an input that does not parse as
YYYY-MM-DD; whenever both inputs parse, it returns normally with the
inclusive day-by-day list. -/
theorem c9_amended (s e : String) (y1 m1 d1 y2 m2 d2 : Nat)
    (hs : strptime_Ymd s = some (y1, m1, d1))
    (he : strptime_Ymd e = some (y2, m2, d2)) :
    ∃ l : List String, generate_date_range s e = .ok l ∧
      l.length = (ordinalOfCivil (Int.ofNat y2) m2 d2 + 1
        - ordinalOfCivil (Int.ofNat y1) m1 d1).toNat := by
  have h : generate_date_range s e = Except.ok
      ((List.range ((ordinalOfCivil (Int.ofNat y2) m2 d2 + 1
        - ordinalOfCivil (Int.ofNat y1) m1 d1).toNat)).map
        (fun i => isoOfCivil (civilFromOrdinal
          (ordinalOfCivil (Int.ofNat y1) m1 d1 + Int.ofNat i)))) := by
    simp [generate_date_range, hs, he]
  refine ⟨_, h, ?_⟩
  simp

/-- C9 witness: both endpoint dates parse, so the range is returned normally
and covers three days. -/
theorem c9_amended_witness :
    ∃ l : List String, generate_date_range "2024-01-01" "2024-01-03" = .ok l ∧
      l.length = (ordinalOfCivil (Int.ofNat 2024) 1 3 + 1
        - ordinalOfCivil (Int.ofNat 2024) 1 1).toNat :=
  c9_amended "2024-01-01" "2024-01-03" 2024 1 1 2024 1 3 (by decide) (by decide)

end Nespreso
